import Mathlib

/-!
Shallow embedding of the free.dm IPC server core
(`src/freedm/utils/ipc/server.py` and `src/freedm/utils/ipc/server/uxd.py`).

The repository ships only the server modules; the companion modules
`freedm.utils.ipc.connection` (Connection, ConnectionType, ConnectionPool)
and `freedm.utils.ipc.message` (Message, CommandMessage) are imported by
the source but are not part of this repository snapshot, so those parts
are modelled from the specification and marked as such in their doc
comments.  Everything else is translated directly from the Python source.

Bytes are modelled as natural numbers; a stream reader is modelled by the
list of chunks that successive `read` calls would return, together with a
flag saying whether the client has signalled end-of-stream after those
chunks.  A `read` call issued when no data is pending and no end-of-stream
was signalled blocks forever; this is modelled by an explicit `blocked`
outcome.
-/

namespace FreedmIPC

/-- Modelled from the spec: the `ConnectionType` enumeration imported from
`freedm.utils.ipc.connection` (not in the repository snapshot); section 3 of
the design lists its members as TEXT_DATA, STREAM_DATA and PERSISTENT. -/
inductive ConnectionType where
  | TEXT_DATA
  | STREAM_DATA
  | PERSISTENT
deriving DecidableEq, Repr

/-- A byte of payload data. -/
abbrev Byte := Nat

/-- An inbound stream: `pending` lists, in order, the chunks that successive
read calls return; `eof` says whether the client signals end-of-stream after
the last pending chunk (false models a client that keeps the stream open). -/
structure StreamReader where
  pending : List (List Byte)
  eof : Bool
deriving DecidableEq, Repr

/-- Python `StreamReader.at_eof()`: true when end-of-stream was received and
the buffer is empty. -/
def StreamReader.atEof (r : StreamReader) : Bool :=
  r.eof && r.pending.isEmpty

/-- Termination measure for the read loops: total pending chunks plus bytes. -/
def StreamReader.measureR (r : StreamReader) : Nat :=
  r.pending.length + (r.pending.map List.length).sum

/-- One `read` call.  The argument `none` models Python `read(-1)` (read until
end-of-stream); `some k` models `read(k)`, returning the next chunk truncated
at `k` bytes with the remainder left pending.  The result is `none` when the
call would block forever (no pending data and the client never closes). -/
def StreamReader.readOnce (r : StreamReader) : Option Nat → Option (List Byte × StreamReader)
  | none =>
      if r.eof then some (r.pending.flatten, ⟨[], true⟩) else none
  | some k =>
      match r.pending with
      | [] => if r.eof then some ([], r) else none
      | c :: rest =>
          if c.length ≤ k then some (c, ⟨rest, r.eof⟩)
          else some (c.take k, ⟨c.drop k :: rest, r.eof⟩)

/-- Python `StreamReader.feed_eof()`. -/
def StreamReader.feedEof (r : StreamReader) : StreamReader :=
  { r with eof := true }

/-- An outbound stream: the payloads written so far, whether `write_eof` was
called, and whether `close` was called. -/
structure StreamWriter where
  written : List (List Byte)
  eofSignalled : Bool
  closed : Bool
deriving DecidableEq, Repr

/-- Python truthiness of `self.limit or -1` / `self.chunksize or -1` as a read
argument: an unset (or zero) value falls back to read-until-eof. -/
def effRead (n : Option Nat) : Option Nat :=
  match n with
  | none => none
  | some k => if k = 0 then none else some k

/-- Outcome of the TEXT_DATA read loop: either the loop left normally with the
value last assigned to the local `message` variable (`none` when the loop body
never ran, i.e. the variable stayed unbound), or a read blocked forever. -/
inductive TextOutcome where
  | finished (last : Option (List Byte)) (rest : StreamReader)
  | blocked
deriving DecidableEq, Repr

/-- Fuel-indexed TEXT_DATA read loop from `IPCServer.handleConnection`
(server.py lines 122-144): `while not reader.at_eof(): message =
Message(await reader.read(limit or -1))`.  Each iteration overwrites
`message`; nothing is accumulated.  The fuel always suffices (see
`textLoopF_fuel`), it only makes the recursion structural. -/
def textLoopF : Nat → Option Nat → StreamReader → Option (List Byte) → TextOutcome
  | 0, _, _, _ => .blocked
  | Nat.succ fuel, limit, r, last =>
      if r.atEof then .finished last r
      else
        match r.readOnce (effRead limit) with
        | none => .blocked
        | some (d, r1) => textLoopF fuel limit r1 (some d)

/-- The TEXT_DATA read loop, started with enough fuel. -/
def textLoop (limit : Option Nat) (r : StreamReader) : TextOutcome :=
  textLoopF (r.measureR + 1) limit r none

/-- Outcome of the STREAM_DATA read loop: the payloads passed to the message
handler in order, and whether a read blocked forever. -/
inductive StreamOutcome where
  | finished (delivered : List (List Byte)) (rest : StreamReader)
  | blocked (delivered : List (List Byte))
deriving DecidableEq, Repr

/-- Fuel-indexed STREAM_DATA read loop from `IPCServer.handleConnection`
(server.py lines 146-154): each read yields one Message handed to the
handler immediately. -/
def streamLoopF : Nat → Option Nat → StreamReader → List (List Byte) → StreamOutcome
  | 0, _, _, acc => .blocked acc
  | Nat.succ fuel, chunksize, r, acc =>
      if r.atEof then .finished acc r
      else
        match r.readOnce (effRead chunksize) with
        | none => .blocked acc
        | some (d, r1) => streamLoopF fuel chunksize r1 (acc ++ [d])

/-- The STREAM_DATA read loop, started with enough fuel. -/
def streamLoop (chunksize : Option Nat) (r : StreamReader) : StreamOutcome :=
  streamLoopF (r.measureR + 1) chunksize r []

/-- The Connection record built by the `_getConnection` /
`_assembleConnection` builders.  The source stores `mode`, `creation` and
`update` in a small state dict; they are explicit fields here (the spec's
design note asks for exactly this fixed-field record). -/
structure Connection where
  pid : Option Int
  uid : Option Int
  gis : Option Int
  clientAddress : Option String
  serverAddress : Option String
  reader : StreamReader
  writer : StreamWriter
  mode : ConnectionType
  creation : Nat
  update : Nat
deriving DecidableEq, Repr

/-- Observable result of running `IPCServer.handleConnection` on one
connection: whether authentication succeeded, the Message payloads passed to
`handleMessage` in order, the payloads written to the connection's writer,
whether `writer.close()` was reached, whether the coroutine died with an
UnboundLocalError (the TEXT_DATA branch references `message` after a loop
that never ran), whether it blocked forever on a read, and the final framing
mode of the connection. -/
structure HandleResult where
  authenticated : Bool
  delivered : List (List Byte)
  written : List (List Byte)
  writerClosed : Bool
  crashed : Bool
  blocked : Bool
  finalMode : ConnectionType
deriving DecidableEq, Repr

/-- `IPCServer.handleConnection` (server.py lines 99-160), translated branch
by branch.  `auth` is the value returned by the `authenticateConnection`
hook.  The commented-out command-header block (lines 110-119) is not executed
by the source and hence absent here.  After the framing branches the source
closes the writer only when the reader is at end-of-stream (lines 157-160).
No branch ever mutates `connection.state`, so the final mode always equals
the initial one. -/
def handleConnection (auth : Bool) (limit chunksize : Option Nat) (conn : Connection) :
    HandleResult :=
  if !auth then
    { authenticated := false, delivered := [], written := [], writerClosed := false,
      crashed := false, blocked := false, finalMode := conn.mode }
  else
    match conn.mode with
    | .TEXT_DATA =>
        match textLoop limit conn.reader with
        | .blocked =>
            { authenticated := true, delivered := [], written := [], writerClosed := false,
              crashed := false, blocked := true, finalMode := conn.mode }
        | .finished none _ =>
            { authenticated := true, delivered := [], written := [], writerClosed := false,
              crashed := true, blocked := false, finalMode := conn.mode }
        | .finished (some m) _ =>
            { authenticated := true, delivered := [m], written := [], writerClosed := true,
              crashed := false, blocked := false, finalMode := conn.mode }
    | .STREAM_DATA =>
        match streamLoop chunksize conn.reader with
        | .blocked ds =>
            { authenticated := true, delivered := ds, written := [], writerClosed := false,
              crashed := false, blocked := true, finalMode := conn.mode }
        | .finished ds _ =>
            { authenticated := true, delivered := ds, written := [], writerClosed := true,
              crashed := false, blocked := false, finalMode := conn.mode }
    | .PERSISTENT =>
        { authenticated := true, delivered := [], written := [],
          writerClosed := conn.reader.atEof, crashed := false, blocked := false,
          finalMode := conn.mode }

/-- Modelled from the spec: the `ConnectionPool` imported from
`freedm.utils.ipc.connection` (not in the repository snapshot).  Per section
4.1 it tracks session handles with an optional maximum capacity; admission
is refused when the current size equals the capacity. -/
structure ConnectionPool where
  max : Option Nat
  sessions : List Nat
deriving DecidableEq, Repr

/-- Modelled from the spec: `isFull` compares the current size with the
configured capacity; an unset capacity means the pool is never full. -/
def ConnectionPool.isFull (p : ConnectionPool) : Bool :=
  match p.max with
  | none => false
  | some m => p.sessions.length == m

/-- Modelled from the spec: `add` registers a running session handle. -/
def ConnectionPool.add (p : ConnectionPool) (s : Nat) : ConnectionPool :=
  { p with sessions := p.sessions ++ [s] }

/-- Modelled from the spec: `remove` deregisters a session handle
(idempotent: removing an absent handle is a no-op). -/
def ConnectionPool.remove (p : ConnectionPool) (s : Nat) : ConnectionPool :=
  { p with sessions := p.sessions.erase s }

/-- Observable result of `IPCServer._onConnectionRegister`: the pool after
the call, whether a session task was created and registered, and whether the
rejected connection's transport was closed inside the function. -/
structure RegisterResult where
  pool : ConnectionPool
  sessionCreated : Bool
  connectionClosed : Bool
deriving DecidableEq, Repr

/-- `IPCServer._onConnectionRegister` (server.py lines 84-97): if the pool is
full the function plainly returns — no session task is created and, notably,
neither the reader nor the writer of the rejected stream pair is closed.
Otherwise a session task for `handleConnection` is created and added to the
pool.  `session` stands for the task handle. -/
def onConnectionRegister (p : ConnectionPool) (session : Nat) : RegisterResult :=
  if p.isFull then
    { pool := p, sessionCreated := false, connectionClosed := false }
  else
    { pool := p.add session, sessionCreated := true, connectionClosed := false }

/-- Per-process state: `IPCServer._connectionPool` is a class attribute
(server.py line 35), i.e. one pool object shared by every instance of
`IPCServer` and of its subclasses in the process. -/
structure ProcessState where
  connectionPool : ConnectionPool
deriving DecidableEq, Repr

/-- An `IPCServer` instance's own attributes (server.py lines 37-50).  The
connection pool is deliberately absent: the source keeps it on the class,
not on the instance. -/
structure IPCServer where
  limit : Option Nat
  chunksize : Option Nat
  mode : Option ConnectionType
deriving DecidableEq, Repr

/-- `IPCServer.__init__` (server.py lines 37-50): stores limit, chunksize and
mode on the instance; when `max_connections` is an int it assigns
`self._connectionPool.max`, which mutates the single class-level pool shared
by all instances. -/
def IPCServer.construct (limit chunksize : Option Nat) (maxConnections : Option Nat)
    (mode : Option ConnectionType) (st : ProcessState) : IPCServer × ProcessState :=
  ( { limit := limit, chunksize := chunksize, mode := mode },
    match maxConnections with
    | some m => { st with connectionPool := { st.connectionPool with max := some m } }
    | none => st )

/-- `UXDSocketServer._getConnection` in server.py (lines 273-291): builds a
Connection from the peer credentials with `self.mode or
ConnectionType.TEXT_DATA` as the framing mode.  `now` stands for
`time.time()`. -/
def UXDSocketServer.getConnection (mode : Option ConnectionType) (pid uid gid : Int)
    (reader : StreamReader) (writer : StreamWriter) (now : Nat) : Connection :=
  { pid := some pid, uid := some uid, gis := some gid,
    clientAddress := none, serverAddress := none,
    reader := reader, writer := writer,
    mode := mode.getD ConnectionType.TEXT_DATA,
    creation := now, update := now }

/-- `UXDSocketServer._assembleConnection` in uxd.py (lines 95-113): same
construction from the same inputs, but the default framing mode is
`self.mode or ConnectionType.PERSISTENT`. -/
def UXDSocketServerUxd.assembleConnection (mode : Option ConnectionType) (pid uid gid : Int)
    (reader : StreamReader) (writer : StreamWriter) (now : Nat) : Connection :=
  { pid := some pid, uid := some uid, gis := some gid,
    clientAddress := none, serverAddress := none,
    reader := reader, writer := writer,
    mode := mode.getD ConnectionType.PERSISTENT,
    creation := now, update := now }

/-- Python `str(message).encode()` for a string payload. -/
def strEncode (s : String) : List Byte :=
  s.data.map Char.toNat

/-- `IPCServer.sendMessage` on one connection (server.py lines 188-194):
writes the serialized payload to the connection's writer, awaits the drain
and then signals end-of-output.  The source checks nothing about the
connection's lifecycle state before writing. -/
def sendMessageTo (message : String) (conn : Connection) : Connection :=
  { conn with writer :=
      { written := conn.writer.written ++ [strEncode message],
        eofSignalled := true,
        closed := conn.writer.closed } }

/-- `IPCServer.sendMessage` (server.py lines 184-196): `if connection:` — a
missing connection makes the call a silent no-op; otherwise the payload is
written unconditionally. -/
def sendMessage (message : String) (connection : Option Connection) : Option Connection :=
  match connection with
  | none => none
  | some c => some (sendMessageTo message c)

/-- Modelled from the spec: the `CommandMessage` command set imported from
`freedm.utils.ipc.message` (not in the repository snapshot); section 4.3
step 4 enumerates PING, PONG, SET_STREAM and SET_DATA. -/
inductive CommandMessage where
  | PING
  | PONG
  | SET_STREAM
  | SET_DATA
deriving DecidableEq, Repr

/-- Modelled from the spec: the numeric wire value of a command code (the
exact encoding is an implementation choice per section 6; only
`CommandMessage.PONG.value` is ever sent by the source). -/
def CommandMessage.value : CommandMessage → Nat
  | .PING => 1
  | .PONG => 2
  | .SET_STREAM => 3
  | .SET_DATA => 4

/-- `IPCServer._handleCommand` (server.py lines 166-178): PING replies with
`sendMessage(CommandMessage.PONG.value, connection)`; PONG is acknowledged
with no reply; the SET_STREAM and SET_DATA branches are literally `pass`
(each carries a TODO comment about changing the connection mode), so they
leave the connection untouched.  Note that nothing in the executed source
ever calls this function: its only call site (server.py lines 110-119) is
commented out. -/
def handleCommand (code : CommandMessage) (conn : Connection) : Connection :=
  match code with
  | .PING => sendMessageTo (toString CommandMessage.PONG.value) conn
  | .PONG => conn
  | .SET_STREAM => conn
  | .SET_DATA => conn

/-- A connection with the given mode and inbound stream, a fresh writer and
no peer identity, used for concrete scenarios. -/
def mkConn (mode : ConnectionType) (r : StreamReader) : Connection :=
  { pid := none, uid := none, gis := none,
    clientAddress := none, serverAddress := none,
    reader := r, writer := { written := [], eofSignalled := false, closed := false },
    mode := mode, creation := 0, update := 0 }

/-! ### Helper lemmas about the read loops -/

lemma textLoopF_atEof (fuel : Nat) (limit : Option Nat) (r : StreamReader)
    (last : Option (List Byte)) (h : r.atEof = true) :
    textLoopF (fuel + 1) limit r last = .finished last r := by
  simp [textLoopF, h]

lemma textLoopF_step (fuel : Nat) (limit : Option Nat) (r : StreamReader)
    (last : Option (List Byte)) (d : List Byte) (r1 : StreamReader)
    (h1 : r.atEof = false) (h2 : r.readOnce (effRead limit) = some (d, r1)) :
    textLoopF (fuel + 1) limit r last = textLoopF fuel limit r1 (some d) := by
  simp [textLoopF, h1, h2]

lemma streamLoopF_atEof (fuel : Nat) (chunksize : Option Nat) (r : StreamReader)
    (acc : List (List Byte)) (h : r.atEof = true) :
    streamLoopF (fuel + 1) chunksize r acc = .finished acc r := by
  simp [streamLoopF, h]

lemma streamLoopF_step (fuel : Nat) (chunksize : Option Nat) (r : StreamReader)
    (acc : List (List Byte)) (d : List Byte) (r1 : StreamReader)
    (h1 : r.atEof = false) (h2 : r.readOnce (effRead chunksize) = some (d, r1)) :
    streamLoopF (fuel + 1) chunksize r acc = streamLoopF fuel chunksize r1 (acc ++ [d]) := by
  simp [streamLoopF, h1, h2]

/-- When the client's whole payload `B` arrives as one read result of at most
`k` bytes and the client then closes, the TEXT_DATA loop finishes after that
single read with `message = B`. -/
lemma textLoop_single (B : List Byte) (k : Nat) (hlt : B.length < k) :
    textLoop (some k) ⟨[B], true⟩ = .finished (some B) ⟨[], true⟩ := by
  have hk : ¬ k = 0 := by omega
  have hstep : (StreamReader.mk [B] true).readOnce (effRead (some k))
      = some (B, ⟨[], true⟩) := by
    simp [StreamReader.readOnce, effRead, hk, Nat.le_of_lt hlt]
  have hm : (StreamReader.mk [B] true).measureR = B.length + 1 := by
    simp [StreamReader.measureR]
    omega
  unfold textLoop
  rw [hm, textLoopF_step (B.length + 1) (some k) _ none B ⟨[], true⟩
        (by simp [StreamReader.atEof]) hstep]
  exact textLoopF_atEof B.length (some k) _ (some B) (by simp [StreamReader.atEof])

/-- With a configured positive chunk size and every arriving chunk of at most
that size, the STREAM_DATA loop delivers exactly the arriving chunks in
order, then finishes at end-of-stream. -/
lemma streamLoopF_chunks (k : Nat) (hk : ¬ k = 0) (cs : List (List Byte)) :
    ∀ (acc : List (List Byte)) (fuel : Nat),
      cs.length ≤ fuel → (∀ c ∈ cs, c.length ≤ k) →
      streamLoopF (fuel + 1) (some k) ⟨cs, true⟩ acc = .finished (acc ++ cs) ⟨[], true⟩ := by
  induction cs with
  | nil =>
      intro acc fuel _ _
      rw [streamLoopF_atEof fuel (some k) _ acc (by simp [StreamReader.atEof])]
      simp
  | cons c rest ih =>
      intro acc fuel hfuel hchunks
      obtain ⟨f, rfl⟩ : ∃ f, fuel = f + 1 := by
        cases fuel with
        | zero => simp at hfuel
        | succ f => exact ⟨f, rfl⟩
      have hstep : (StreamReader.mk (c :: rest) true).readOnce (effRead (some k))
          = some (c, ⟨rest, true⟩) := by
        simp [StreamReader.readOnce, effRead, hk, hchunks c (List.mem_cons_self c rest)]
      rw [streamLoopF_step (f + 1) (some k) _ acc c ⟨rest, true⟩
            (by simp [StreamReader.atEof]) hstep]
      rw [ih (acc ++ [c]) f (by simpa using hfuel)
            (fun x hx => hchunks x (List.mem_cons_of_mem _ hx))]
      simp

lemma streamLoop_chunks (k : Nat) (hk : 0 < k) (cs : List (List Byte))
    (hchunks : ∀ c ∈ cs, c.length ≤ k) :
    streamLoop (some k) ⟨cs, true⟩ = .finished cs ⟨[], true⟩ := by
  unfold streamLoop
  have hm : (StreamReader.mk cs true).measureR
      = cs.length + (cs.map List.length).sum := rfl
  rw [hm]
  rw [streamLoopF_chunks k (by omega) cs [] (cs.length + (cs.map List.length).sum)
        (Nat.le_add_right _ _) hchunks]
  simp

/-! ### Claim theorems -/

/-- C1: at the spec's own failing scenario — read limit 10, TEXT_DATA
connection, client sends 11 bytes without closing — the session does NOT
fail with a MessageLimitExceeded condition: the read loop consumes the bytes
in limit-capped reads and then blocks forever on the next read.  The handler
is indeed never invoked, nothing is written, and the connection is never
closed; the source defines the exception class `freedmIPCMessageLimitOverrun`
(server.py lines 316-320, whose docstring says it gets thrown when a message
exceeds the set limit) but no code path ever raises it, which is why the
session outcome type of this embedding has no limit-failure case at all. -/
theorem C1_limit_overrun_never_raised :
    handleConnection true (some 10) none
        (mkConn .TEXT_DATA ⟨[List.replicate 11 65], false⟩) =
      { authenticated := true, delivered := [], written := [], writerClosed := false,
        crashed := false, blocked := true, finalMode := .TEXT_DATA } := by
  decide

/-- C2: counterexample to the claim as stated: with a full pool (capacity 1,
one tracked session) `_onConnectionRegister` creates no session but also does
NOT close the connection — the source plainly returns without touching the
accepted reader/writer pair, whereas the claim says the connection is
immediately closed. -/
theorem C2_full_pool_reject_without_close :
    onConnectionRegister ⟨some 1, [7]⟩ 9 =
      { pool := ⟨some 1, [7]⟩, sessionCreated := false, connectionClosed := false } ∧
    (onConnectionRegister ⟨some 1, [7]⟩ 9).connectionClosed ≠ true := by
  decide

/-- C2 (amended): for every accepted raw stream pair, if the pool is full at
acceptance time then no session task is created or registered — but the
connection is not closed either, it is silently abandoned; otherwise a
session task is created and registered in the pool.  Because fullness is
checked before registration, a pool within capacity stays within capacity,
so at most capacity-many sessions are ever active. -/
theorem C2_pool_admission (p : ConnectionPool) (s m : Nat)
    (hmax : p.max = some m) (hle : p.sessions.length ≤ m) :
    (onConnectionRegister p s).pool.sessions.length ≤ m ∧
    (p.isFull = true → onConnectionRegister p s =
      { pool := p, sessionCreated := false, connectionClosed := false }) ∧
    (p.isFull = false → onConnectionRegister p s =
      { pool := p.add s, sessionCreated := true, connectionClosed := false }) := by
  by_cases h : p.isFull = true
  · exact ⟨by simp [onConnectionRegister, h, hle], fun _ => by simp [onConnectionRegister, h],
      fun hf => absurd h (by simp [hf])⟩
  · have hf : p.isFull = false := by simpa using h
    have hne : p.sessions.length ≠ m := by
      intro hEq
      exact h (by simp [ConnectionPool.isFull, hmax, hEq])
    have hlt : p.sessions.length < m := lt_of_le_of_ne hle hne
    refine ⟨?_, fun ht => absurd ht h, fun _ => by simp [onConnectionRegister, hf]⟩
    simp [onConnectionRegister, hf, ConnectionPool.add]
    omega

/-- C2 witness: the amended theorem applied to a pool of capacity 2 holding
one session. -/
theorem C2_pool_admission_witness :
    (onConnectionRegister ⟨some 2, [7]⟩ 9).pool.sessions.length ≤ 2 ∧
    ((⟨some 2, [7]⟩ : ConnectionPool).isFull = true → onConnectionRegister ⟨some 2, [7]⟩ 9 =
      { pool := ⟨some 2, [7]⟩, sessionCreated := false, connectionClosed := false }) ∧
    ((⟨some 2, [7]⟩ : ConnectionPool).isFull = false → onConnectionRegister ⟨some 2, [7]⟩ 9 =
      { pool := (⟨some 2, [7]⟩ : ConnectionPool).add 9, sessionCreated := true,
        connectionClosed := false }) :=
  C2_pool_admission ⟨some 2, [7]⟩ 9 2 rfl (by decide)

/-- C3: counterexample to the claim as stated: when the authentication hook
returns false the handler is never invoked, but the connection is NOT
dropped — `handleConnection` plainly returns before the teardown code, so
the writer is never closed and the streams are not released, whereas the
claim says the session transitions to closing with its streams released. -/
theorem C3_auth_reject_streams_not_released :
    (handleConnection false none none (mkConn .TEXT_DATA ⟨[[1]], true⟩)).writerClosed
      = false ∧
    (handleConnection false none none (mkConn .TEXT_DATA ⟨[[1]], true⟩)).delivered
      = [] := by
  decide

/-- C3 (amended): for every connection whose authentication hook returns
false, `handleConnection` returns immediately: the message handler is never
invoked, nothing is ever written to the peer, and the framing mode is left
untouched — but the connection's streams are not released (the writer is
never closed). -/
theorem C3_auth_reject_no_handler (limit chunksize : Option Nat) (conn : Connection) :
    handleConnection false limit chunksize conn =
      { authenticated := false, delivered := [], written := [], writerClosed := false,
        crashed := false, blocked := false, finalMode := conn.mode } := by
  rfl

/-- C4: counterexample to the claim as stated: the client sends B = [1, 2]
(shorter than the limit 10) and closes, but the bytes arrive as two read
results [1] and [2]; the TEXT_DATA loop overwrites its local `message`
variable on every read (nothing is accumulated — the accumulating variant in
the source is commented out), so the single delivered Message carries only
the final chunk [2], not the entire sequence B. -/
theorem C4_split_arrival_delivers_last_chunk_only :
    (handleConnection true (some 10) none
        (mkConn .TEXT_DATA ⟨[[1], [2]], true⟩)).delivered = [[2]] ∧
    (handleConnection true (some 10) none
        (mkConn .TEXT_DATA ⟨[[1], [2]], true⟩)).delivered ≠ [[1, 2]] := by
  decide

/-- C4 (amended): in TEXT_DATA mode exactly one Message is delivered after
end-of-stream, whose payload is the result of the LAST read before
end-of-stream; when the whole sequence B (shorter than the configured limit)
arrives as a single read result, that payload is exactly B, the handler is
invoked exactly once, no further reads are attempted and the connection is
closed. -/
theorem C4_single_read_delivery (B : List Byte) (k : Nat) (chunksize : Option Nat)
    (conn : Connection) (hmode : conn.mode = .TEXT_DATA)
    (hreader : conn.reader = ⟨[B], true⟩) (_hne : B ≠ []) (hlt : B.length < k) :
    handleConnection true (some k) chunksize conn =
      { authenticated := true, delivered := [B], written := [], writerClosed := true,
        crashed := false, blocked := false, finalMode := .TEXT_DATA } := by
  have h := textLoop_single B k hlt
  simp [handleConnection, hmode, hreader, h]

/-- C4 witness: the amended theorem at B = [1, 2, 3], limit 10. -/
theorem C4_single_read_delivery_witness :
    handleConnection true (some 10) none (mkConn .TEXT_DATA ⟨[[1, 2, 3]], true⟩) =
      { authenticated := true, delivered := [[1, 2, 3]], written := [],
        writerClosed := true, crashed := false, blocked := false,
        finalMode := .TEXT_DATA } :=
  C4_single_read_delivery [1, 2, 3] 10 none (mkConn .TEXT_DATA ⟨[[1, 2, 3]], true⟩)
    rfl rfl (by decide) (by decide)

/-- C5: in STREAM_DATA mode with a configured positive chunk size, when the
client's bytes arrive as non-empty chunks each of at most that size followed
by end-of-stream, the handler receives one Message per chunk, with payloads
exactly the chunks in arrival order, after which the connection is closed. -/
theorem C5_stream_chunk_delivery (cs : List (List Byte)) (k : Nat) (limit : Option Nat)
    (conn : Connection) (hmode : conn.mode = .STREAM_DATA)
    (hreader : conn.reader = ⟨cs, true⟩) (hk : 0 < k)
    (hchunks : ∀ c ∈ cs, c ≠ [] ∧ c.length ≤ k) :
    handleConnection true limit (some k) conn =
      { authenticated := true, delivered := cs, written := [], writerClosed := true,
        crashed := false, blocked := false, finalMode := .STREAM_DATA } := by
  have h := streamLoop_chunks k hk cs (fun c hc => (hchunks c hc).2)
  simp [handleConnection, hmode, hreader, h]

/-- C5 witness: the theorem at chunks [1] and [2, 3] with chunk size 2. -/
theorem C5_stream_chunk_delivery_witness :
    handleConnection true none (some 2) (mkConn .STREAM_DATA ⟨[[1], [2, 3]], true⟩) =
      { authenticated := true, delivered := [[1], [2, 3]], written := [],
        writerClosed := true, crashed := false, blocked := false,
        finalMode := .STREAM_DATA } :=
  C5_stream_chunk_delivery [[1], [2, 3]] 2 none
    (mkConn .STREAM_DATA ⟨[[1], [2, 3]], true⟩) rfl rfl (by decide) (by decide)

/-- C6: at the failing input — a TEXT_DATA connection whose client sends the
bytes of a SET_STREAM command frame — the connection's mode is still
TEXT_DATA afterwards and the frame bytes are delivered to the message
handler as ordinary TEXT payload: the source's command-header dispatch
(server.py lines 110-119) is commented out, and even `_handleCommand`
itself leaves the connection untouched on SET_STREAM because that branch is
literally `pass` under a TODO comment (server.py lines 173-175). -/
theorem C6_set_stream_never_mutates_mode :
    (handleConnection true none none (mkConn .TEXT_DATA ⟨[[51]], true⟩)).finalMode
      = .TEXT_DATA ∧
    (handleConnection true none none (mkConn .TEXT_DATA ⟨[[51]], true⟩)).delivered
      = [[51]] ∧
    handleCommand .SET_STREAM (mkConn .TEXT_DATA ⟨[[51]], true⟩)
      = mkConn .TEXT_DATA ⟨[[51]], true⟩ := by
  decide

/-- C7: at the failing input — an authenticated TEXT_DATA connection whose
client sends a PING command header and then closes its write side — the
server writes nothing back (no PONG: the only call site of `_handleCommand`
is commented out, server.py lines 110-119), and the header bytes ARE
delivered to the message handler as an ordinary payload Message; only the
closing of the connection happens as claimed, via the end-of-stream path. -/
theorem C7_ping_reaches_handler_no_pong :
    handleConnection true none none (mkConn .TEXT_DATA ⟨[[49]], true⟩) =
      { authenticated := true, delivered := [[49]], written := [], writerClosed := true,
        crashed := false, blocked := false, finalMode := .TEXT_DATA } := by
  decide

/-- C8: counterexample to the claim as stated: sending to a connection whose
writer is already closed (the CLOSED state) is not rejected — the payload is
written anyway, whereas the claim says nothing is written. -/
theorem C8_send_to_closed_still_writes :
    (sendMessage "42" (some { mkConn .TEXT_DATA ⟨[], true⟩ with
        writer := { written := [], eofSignalled := true, closed := true } })).map
      (fun c => c.writer.written) = some [strEncode "42"] ∧
    some [strEncode "42"] ≠ some ([] : List (List Byte)) := by
  decide

/-- C8 (amended): `sendMessage` performs no connection-state check at all:
for every present connection — closing, closed or live — it writes the
serialized payload to the writer, awaits the drain and signals
end-of-output; only an absent connection makes the call a silent no-op
(which is also why the call never crashes in this model). -/
theorem C8_send_unconditional (message : String) (c : Connection) :
    sendMessage message (some c) = some (sendMessageTo message c) ∧
    (sendMessageTo message c).writer.written = c.writer.written ++ [strEncode message] ∧
    (sendMessageTo message c).writer.eofSignalled = true ∧
    (sendMessageTo message c).writer.closed = c.writer.closed ∧
    sendMessage message none = none :=
  ⟨rfl, rfl, rfl, rfl, rfl⟩

/-- C9: the connection pool is class-level state shared by all server
instances in the process (server.py line 35): constructing one server with
`max_connections` set mutates the capacity of the single pool (server.py
lines 49-50).  Hence after two servers are constructed, the pool that both
admit into carries the capacity configured by the LAST construction — the
first server's earlier setting is overwritten — while the tracked sessions
survive both constructions unchanged. -/
theorem C9_class_level_pool_shared (st : ProcessState) (l1 c1 l2 c2 : Option Nat)
    (mo1 mo2 : Option ConnectionType) (m1 m2 : Nat) :
    ((IPCServer.construct l1 c1 (some m1) mo1 st).2).connectionPool.max = some m1 ∧
    ((IPCServer.construct l2 c2 (some m2) mo2
        (IPCServer.construct l1 c1 (some m1) mo1 st).2).2).connectionPool.max = some m2 ∧
    ((IPCServer.construct l2 c2 (some m2) mo2
        (IPCServer.construct l1 c1 (some m1) mo1 st).2).2).connectionPool.sessions
      = st.connectionPool.sessions ∧
    ((IPCServer.construct l2 c2 none mo2 st).2) = st :=
  ⟨rfl, rfl, rfl, rfl⟩

/-- C10: counterexample to the claim as stated: from identical inputs with no
configured mode, the builder in server.py and the builder in uxd.py produce
different Connections — the former defaults the framing mode to TEXT_DATA,
the latter to PERSISTENT. -/
theorem C10_default_modes_differ :
    UXDSocketServer.getConnection none 1 2 3 ⟨[], true⟩ ⟨[], false, false⟩ 0
      ≠ UXDSocketServerUxd.assembleConnection none 1 2 3 ⟨[], true⟩ ⟨[], false, false⟩ 0 ∧
    (UXDSocketServer.getConnection none 1 2 3 ⟨[], true⟩ ⟨[], false, false⟩ 0).mode
      = .TEXT_DATA ∧
    (UXDSocketServerUxd.assembleConnection none 1 2 3 ⟨[], true⟩ ⟨[], false, false⟩ 0).mode
      = .PERSISTENT := by
  decide

/-- C10 (amended): the two builders agree whenever a mode is configured, but
their defaults differ: with no configured mode the server.py builder
assigns TEXT_DATA while the uxd.py builder assigns PERSISTENT — and
PERSISTENT is a mode for which the session engine has no framing branch, so
a PERSISTENT connection never has any Message delivered to the handler and
never has anything written back. -/
theorem C10_builders_differ_only_in_default (mode : ConnectionType)
    (pid uid gid : Int) (r : StreamReader) (w : StreamWriter) (now : Nat)
    (auth : Bool) (limit chunksize : Option Nat) (conn : Connection)
    (hmode : conn.mode = .PERSISTENT) :
    UXDSocketServer.getConnection (some mode) pid uid gid r w now
      = UXDSocketServerUxd.assembleConnection (some mode) pid uid gid r w now ∧
    (UXDSocketServer.getConnection none pid uid gid r w now).mode = .TEXT_DATA ∧
    (UXDSocketServerUxd.assembleConnection none pid uid gid r w now).mode = .PERSISTENT ∧
    (handleConnection auth limit chunksize conn).delivered = [] ∧
    (handleConnection auth limit chunksize conn).written = [] := by
  refine ⟨rfl, rfl, rfl, ?_, ?_⟩ <;> cases auth <;> simp [handleConnection, hmode]

/-- C10 witness: the amended theorem at concrete inputs, with a PERSISTENT
connection holding undelivered pending bytes. -/
theorem C10_builders_differ_only_in_default_witness :
    UXDSocketServer.getConnection (some .STREAM_DATA) 1 2 3 ⟨[], true⟩ ⟨[], false, false⟩ 5
      = UXDSocketServerUxd.assembleConnection (some .STREAM_DATA) 1 2 3 ⟨[], true⟩
          ⟨[], false, false⟩ 5 ∧
    (UXDSocketServer.getConnection none 1 2 3 ⟨[], true⟩ ⟨[], false, false⟩ 5).mode
      = .TEXT_DATA ∧
    (UXDSocketServerUxd.assembleConnection none 1 2 3 ⟨[], true⟩ ⟨[], false, false⟩ 5).mode
      = .PERSISTENT ∧
    (handleConnection true none none (mkConn .PERSISTENT ⟨[[1]], false⟩)).delivered = [] ∧
    (handleConnection true none none (mkConn .PERSISTENT ⟨[[1]], false⟩)).written = [] :=
  C10_builders_differ_only_in_default .STREAM_DATA 1 2 3 ⟨[], true⟩ ⟨[], false, false⟩ 5
    true none none (mkConn .PERSISTENT ⟨[[1]], false⟩) rfl

end FreedmIPC
